import Mathlib

/-!
Verification development for the focalboard `WSClient`
(src/webapp/src/wsclient.ts).

The client is single-threaded and event driven, so it is embedded as a pure
state-transition system: the instance fields become a `WSState` record, each
method or transport callback becomes a function `... → WSState → WSState`
(paired with a `List WSEvent` trace recording the observable effects: handler
invocations, log lines, scheduled timers), and callback handlers registered by
the application are represented by numeric identifiers.  Handler behaviour,
where it matters (flush handlers may re-enter `queueUpdateNotification`), is
supplied as an interpretation function `Nat → WSState → WSState`.
-/

namespace WS

/-- Embeds the application `Block` entity (imported from `./blocks/block`).
Only the stable identity field matters to the client; `title` stands for the
rest of the record so that distinct values with equal identities exist. -/
structure Block where
  id : String
  title : String
  deriving DecidableEq

/-- Embeds the sidebar `Category` entity (imported from `./store/sidebar`).
As for `Block`, only the identity field is interpreted by the client. -/
structure Category where
  id : String
  name : String
  deriving DecidableEq

/-- The `Block | Category` union taken by `queueUpdateNotification`; the
`ChangeHandlerType` tag of the source is determined by the constructor, as it
is by `Utils.fixWSData` in the callers. -/
inductive UpdateData where
  | block (b : Block)
  | category (c : Category)
  deriving DecidableEq

/-- Embeds the `ChangeHandlers` record (wsclient.ts:59-62): the per-category
registries of change handlers, represented by handler identifiers. -/
structure ChangeHandlers where
  Block : List Nat
  Category : List Nat
  deriving DecidableEq

/-- Embeds the `UpdatedData` record (wsclient.ts:54-57): the pending-update
buffer of the coalescer. -/
structure UpdatedData where
  Blocks : List Block
  Categories : List Category
  deriving DecidableEq

/-- Embeds the mutable fields of the `WSClient` class (wsclient.ts:64-84).
`ws` and `client` record whether the raw socket / relay client handle is set
(`true` stands for non-null); handler registries are lists of handler
identifiers; `updateTimeout` holds the absolute deadline of the pending
debounce timer when armed; `errorPollActive` records whether the embedded-mode
readiness poll interval (`errorPollId`) is set. -/
structure WSState where
  ws : Bool
  client : Bool
  state : String
  pluginId : String
  pluginVersion : List Nat
  clientPrefixStr : String
  onAppVersionChangeHandler : Bool
  onStateChange : List Nat
  onReconnect : List Nat
  onChange : ChangeHandlers
  onError : List Nat
  onConfigChange : List Nat
  updatedData : UpdatedData
  updateTimeout : Option Nat
  errorPollActive : Bool
  deriving DecidableEq

/-- Observable events of a transition: handler invocations (recording the
arguments passed, and for state-change handlers also the value of the client's
`state` field at the moment of the call), log lines, and timer scheduling. -/
inductive WSEvent where
  | stateChangeCall (handler : Nat) (arg : String) (stateAtCall : String)
  | reconnectCall (handler : Nat)
  | errorCall (handler : Nat)
  | blockChangeCall (handler : Nat) (blocks : List Block)
  | categoryChangeCall (handler : Nat) (categories : List Category)
  | logFlushBlock (id : String)
  | logFlushCategory (id : String)
  | logReconnect
  | logClose (connectFailCount : Nat)
  | pollStarted
  | appVersionChange (versionHasChanged : Bool)
  | scheduleReconnect (delayMs : Nat)
  deriving DecidableEq

/-- Embeds `ACTION_AUTH` (wsclient.ts:28). -/
def ACTION_AUTH : String := "AUTH"

/-- Embeds `ACTION_SUBSCRIBE_BLOCKS` (wsclient.ts:29). -/
def ACTION_SUBSCRIBE_BLOCKS : String := "SUBSCRIBE_BLOCKS"

/-- Embeds `ACTION_SUBSCRIBE_WORKSPACE` (wsclient.ts:30). -/
def ACTION_SUBSCRIBE_WORKSPACE : String := "SUBSCRIBE_WORKSPACE"

/-- Embeds `ACTION_UNSUBSCRIBE_WORKSPACE` (wsclient.ts:31). -/
def ACTION_UNSUBSCRIBE_WORKSPACE : String := "UNSUBSCRIBE_WORKSPACE"

/-- Embeds `ACTION_UNSUBSCRIBE_BLOCKS` (wsclient.ts:32). -/
def ACTION_UNSUBSCRIBE_BLOCKS : String := "UNSUBSCRIBE_BLOCKS"

/-- Embeds the `private notificationDelay = 100` field (wsclient.ts:79). -/
def notificationDelay : Nat := 100

/-- Modelled from the spec: `OctoUtils.hydrateBlock` lives outside the
analysed sources (`./octoUtils`); the specification's coalescer contract
(section 4.3) says enqueue "appends the new value", so hydration is modelled
as the identity on blocks (it rebuilds the same block value with its concrete
class). -/
def hydrateBlock (b : Block) : Block := b

/-- Embeds the `WSCommand` outgoing-command record (wsclient.ts:12-17),
extended with the `token` field that `authenticate` places in its untyped
command literal (wsclient.ts:385-389). -/
structure WSCommand where
  action : String
  workspaceId : Option String
  readToken : Option String
  blockIds : Option (List String)
  token : Option String
  deriving DecidableEq

/-- A message handed to a transport: either the relay client's `sendMessage`
(with the namespaced action name) or the raw socket's `send`. -/
inductive SentMessage where
  | relay (action : String) (data : WSCommand)
  | raw (command : WSCommand)
  deriving DecidableEq

/-- Embeds `hasConn` (wsclient.ts:324-326). -/
def hasConn (s : WSState) : Bool :=
  s.ws || s.client

/-- Embeds `sendCommand` (wsclient.ts:117-125): in embedded mode the action is
namespaced with the client command-name head and sent through the relay;
otherwise it is serialized to the raw socket when one is set (`this.ws?.send`),
and silently dropped when none is. -/
def sendCommand (command : WSCommand) (s : WSState) : Option SentMessage :=
  if s.client then some (SentMessage.relay (s.clientPrefixStr ++ command.action) command)
  else if s.ws then some (SentMessage.raw command)
  else none

/-- Embeds `initPlugin` (wsclient.ts:109-115); setting `client := true` models
storing the relay-client handle. -/
def initPlugin (pluginId : String) (pluginVersion : List Nat) (s : WSState) : WSState :=
  { s with pluginId := pluginId, pluginVersion := pluginVersion,
           clientPrefixStr := "custom_" ++ pluginId ++ "_", client := true }

/-- Embeds `queueUpdateNotification` (wsclient.ts:454-472): evict any buffered
entity with the same identity in that category's sequence, append the new
value, then cancel any pending debounce timer and arm a fresh one expiring
`notificationDelay` after the current instant `now`. -/
def queueUpdateNotification (data : UpdateData) (now : Nat) (s : WSState) : WSState :=
  let s1 :=
    match data with
    | UpdateData.block b =>
      { s with updatedData := { s.updatedData with
          Blocks := s.updatedData.Blocks.filter (fun (o : Block) => o.id != b.id)
            ++ [hydrateBlock b] } }
    | UpdateData.category c =>
      { s with updatedData := { s.updatedData with
          Categories := s.updatedData.Categories.filter (fun (o : Category) => o.id != c.id)
            ++ [c] } }
  { s1 with updateTimeout := some (now + notificationDelay) }

/-- The trivial handler interpretation: handlers that do not touch the client
state. -/
def idInterp : Nat → WSState → WSState := fun _ s => s

/-- Embeds the block-handler loop of `flushUpdateNotifications`
(wsclient.ts:483-485): each handler receives `this.updatedData.Blocks` as it
stands at the moment of its own call, and its behaviour is `interp`. -/
def runBlockHandlers (interp : Nat → WSState → WSState) :
    List Nat → WSState → WSState × List WSEvent
  | [], s => (s, [])
  | h :: rest, s =>
    let ev := WSEvent.blockChangeCall h s.updatedData.Blocks
    let r := runBlockHandlers interp rest (interp h s)
    (r.1, ev :: r.2)

/-- Embeds the category-handler loop of `flushUpdateNotifications`
(wsclient.ts:487-489). -/
def runCategoryHandlers (interp : Nat → WSState → WSState) :
    List Nat → WSState → WSState × List WSEvent
  | [], s => (s, [])
  | h :: rest, s =>
    let ev := WSEvent.categoryChangeCall h s.updatedData.Categories
    let r := runCategoryHandlers interp rest (interp h s)
    (r.1, ev :: r.2)

/-- Embeds `flushUpdateNotifications` (wsclient.ts:474-495): log every
buffered identity, invoke every registered block-change handler, then every
registered category-change handler, and only afterwards reset the
pending-update buffer to empty. -/
def flushUpdateNotifications (interp : Nat → WSState → WSState) (s : WSState) :
    WSState × List WSEvent :=
  let logEvs := s.updatedData.Blocks.map (fun b => WSEvent.logFlushBlock b.id)
      ++ s.updatedData.Categories.map (fun c => WSEvent.logFlushCategory c.id)
  let r1 := runBlockHandlers interp s.onChange.Block s
  let r2 := runCategoryHandlers interp r1.1.onChange.Category r1.1
  ({ r2.1 with updatedData := { Blocks := [], Categories := [] } },
   logEvs ++ r1.2 ++ r2.2)

/-- Handler loop that delivers a batch captured before the handlers run;
used by the specification-side flush below. -/
def runHandlersFixed (interp : Nat → WSState → WSState) (mk : Nat → WSEvent) :
    List Nat → WSState → WSState × List WSEvent
  | [], s => (s, [])
  | h :: rest, s =>
    let r := runHandlersFixed interp mk rest (interp h s)
    (r.1, mk h :: r.2)

/-- Modelled from the spec: flush as the specification words it — the pending
buffer "is swapped to an empty buffer atomically at flush time so concurrently
queued updates during flush-handler execution land in a fresh buffer, not the
one being flushed".  The batches are captured, the buffer is emptied first,
and the handlers then run against the fresh buffer, which is not reset
afterwards. -/
def flushSwapFirstSpec (interp : Nat → WSState → WSState) (s : WSState) :
    WSState × List WSEvent :=
  let blocks := s.updatedData.Blocks
  let cats := s.updatedData.Categories
  let logEvs := blocks.map (fun b => WSEvent.logFlushBlock b.id)
      ++ cats.map (fun c => WSEvent.logFlushCategory c.id)
  let s0 : WSState := { s with updatedData := { Blocks := [], Categories := [] } }
  let r1 := runHandlersFixed interp (fun h => WSEvent.blockChangeCall h blocks)
      s0.onChange.Block s0
  let r2 := runHandlersFixed interp (fun h => WSEvent.categoryChangeCall h cats)
      r1.1.onChange.Category r1.1
  (r2.1, logEvs ++ r1.2 ++ r2.2)

/-- Embeds the state-change dispatch loop used by every lifecycle callback
(for example wsclient.ts:199-201): each handler is called with the transition
argument while the client's `state` field still holds its current value, which
the event records. -/
def fireStateChange (arg : String) (s : WSState) : List WSEvent :=
  s.onStateChange.map (fun h => WSEvent.stateChangeCall h arg s.state)

/-- Embeds the embedded-mode `onConnect` callback (wsclient.ts:196-203): fire
every state-change handler with argument "open", then set the state field to
"open". -/
def onConnectPlugin (s : WSState) : WSState × List WSEvent :=
  ({ s with state := "open" }, fireStateChange "open" s)

/-- Embeds the standalone `ws.onopen` callback (wsclient.ts:262-268): fire
every state-change handler with argument "open", then set the state field to
"open". -/
def wsOnOpen (s : WSState) : WSState × List WSEvent :=
  ({ s with state := "open" }, fireStateChange "open" s)

/-- Embeds the embedded-mode `onReconnect` callback (wsclient.ts:205-213),
which is also the closure captured as `onPluginReconnect`: log, run
`onConnect`, then fire every reconnect handler. -/
def onReconnectPlugin (s : WSState) : WSState × List WSEvent :=
  let r := onConnectPlugin s
  (r.1, WSEvent.logReconnect :: r.2 ++ r.1.onReconnect.map (fun h => WSEvent.reconnectCall h))

/-- Embeds the embedded-mode `onClose` callback (wsclient.ts:215-237): log the
fail count, fire every state-change handler with argument "close", set the
state field to "close", and start the readiness poll interval unless one is
already running. -/
def onClosePlugin (connectFailCount : Nat) (s : WSState) : WSState × List WSEvent :=
  let evs := WSEvent.logClose connectFailCount :: fireStateChange "close" s
  let s1 : WSState := { s with state := "close" }
  if s1.errorPollActive then (s1, evs)
  else ({ s1 with errorPollActive := true }, evs ++ [WSEvent.pollStarted])

/-- Embeds the poll interval body (wsclient.ts:228-235) over a sequence of
successive observations of `this.client?.conn?.readyState`: while the poll is
active, each tick inspects one reading; the first reading equal to `1` invokes
the captured reconnect logic and clears the interval, ending the poll. -/
def runPoll : List Nat → WSState → WSState × List WSEvent
  | [], s => (s, [])
  | reading :: rest, s =>
    if s.errorPollActive then
      if reading == 1 then
        let rc := onReconnectPlugin s
        ({ rc.1 with errorPollActive := false }, rc.2)
      else runPoll rest s
    else (s, [])

/-- An enqueue event fed to the coalescer: the payload of one inbound mutation
message together with the instant at which it arrives. -/
structure EnqEvent where
  data : UpdateData
  time : Nat
  deriving DecidableEq

/-- One enqueue step of the coalescer, used to fold event sequences. -/
def stepEnq (s : WSState) (e : EnqEvent) : WSState :=
  queueUpdateNotification e.data e.time s

/-- A timed run of the coalescer: the client state together with the number of
debounce-timer firings (calls of `flushUpdateNotifications`) so far. -/
structure TimedRun where
  state : WSState
  flushCount : Nat
  deriving DecidableEq

/-- The debounce timer firing (wsclient.ts:469-471): the one-shot timeout runs
`flushUpdateNotifications` and is spent. -/
def fireFlush (tr : TimedRun) : TimedRun :=
  { state := { (flushUpdateNotifications idInterp tr.state).1 with updateTimeout := none },
    flushCount := tr.flushCount + 1 }

/-- Fires the pending debounce timer if its deadline has been reached by
instant `t`; single-threaded execution delivers a due timeout before the next
message callback runs. -/
def fireIfDue (t : Nat) (tr : TimedRun) : TimedRun :=
  match tr.state.updateTimeout with
  | some deadline => if deadline ≤ t then fireFlush tr else tr
  | none => tr

/-- One step of a timed run: deliver any due timer firing, then process the
enqueue (which re-arms the debounce timer, wsclient.ts:464-471). -/
def stepTimed (tr : TimedRun) (e : EnqEvent) : TimedRun :=
  let tr1 := fireIfDue e.time tr
  { tr1 with state := queueUpdateNotification e.data e.time tr1.state }

/-- After the last enqueue the system goes quiet: the armed timer, if any,
fires. -/
def drainTimer (tr : TimedRun) : TimedRun :=
  match tr.state.updateTimeout with
  | some _ => fireFlush tr
  | none => tr

/-- Runs a whole burst of enqueue events from state `s`, followed by the quiet
window in which the remaining timer fires. -/
def runBurst (evs : List EnqEvent) (s : WSState) : TimedRun :=
  drainTimer (evs.foldl stepTimed { state := s, flushCount := 0 })

/-- Holds when consecutive instants are spaced less than the debounce interval
apart. -/
def closelySpaced : List Nat → Bool
  | [] => true
  | [_] => true
  | t1 :: t2 :: rest => decide (t2 < t1 + notificationDelay) && closelySpaced (t2 :: rest)

/-- Modelled from the spec: `Utils.compareVersions` lives outside the analysed
sources (`./utils`); the specification (section 4.4) calls it "semantic
version comparison" whose result is positive exactly when the second
(broadcast) version is strictly newer than the first (recorded) one, as the
source's guards and comments at wsclient.ts:352-362 require.  Versions are
dotted numeric component lists; missing components count as zero. -/
def compareVersions : List Nat → List Nat → Int
  | [], lb => if lb.all (fun b => b == 0) then 0 else 1
  | a :: la, [] => if a == 0 then compareVersions la [] else -1
  | a :: la, b :: lb =>
    if a < b then 1 else if b < a then -1 else compareVersions la lb

/-- Embeds one element of the `data.plugin_statuses` payload consumed by
`pluginStatusesChangedHandler` (wsclient.ts:350). -/
structure PluginStatus where
  plugin_id : String
  version : List Nat
  deriving DecidableEq

/-- Embeds `pluginStatusesChangedHandler` (wsclient.ts:345-374): bail out when
no plugin id is recorded or no app-version-change handler is registered; find
the status entry naming this instance's plugin id; if the broadcast version is
strictly newer fire the hook with `true`; if it is newer or equal schedule a
reconnect through the captured reconnect logic after 1000 ms. -/
def pluginStatusesChangedHandler (data : List PluginStatus) (s : WSState) : List WSEvent :=
  if s.pluginId == "" || !s.onAppVersionChangeHandler then []
  else
    match data.find? (fun st => st.plugin_id == s.pluginId) with
    | none => []
    | some st =>
      (if compareVersions s.pluginVersion st.version > 0
        then [WSEvent.appVersionChange true] else [])
      ++ (if compareVersions s.pluginVersion st.version ≥ 0
        then [WSEvent.scheduleReconnect 1000] else [])

/-- Embeds `authenticate` (wsclient.ts:376-392): skip silently with no
transport, no-op on an empty token, otherwise build and send the AUTH
command.  The returned state is the (unchanged) client state. -/
def authenticate (workspaceId token : String) (s : WSState) :
    WSState × Option SentMessage :=
  if !(hasConn s) then (s, none)
  else if token == "" then (s, none)
  else
    let command : WSCommand :=
      { action := ACTION_AUTH
        workspaceId := some workspaceId
        readToken := none
        blockIds := none
        token := some token }
    (s, sendCommand command s)

/-- Embeds `subscribeToBlocks` (wsclient.ts:394-408). -/
def subscribeToBlocks (workspaceId : String) (blockIds : List String)
    (readToken : String) (s : WSState) : WSState × Option SentMessage :=
  if !(hasConn s) then (s, none)
  else
    let command : WSCommand :=
      { action := ACTION_SUBSCRIBE_BLOCKS
        workspaceId := some workspaceId
        readToken := some readToken
        blockIds := some blockIds
        token := none }
    (s, sendCommand command s)

/-- Embeds `unsubscribeToWorkspace` (wsclient.ts:410-422). -/
def unsubscribeToWorkspace (workspaceId : String) (s : WSState) :
    WSState × Option SentMessage :=
  if !(hasConn s) then (s, none)
  else
    let command : WSCommand :=
      { action := ACTION_UNSUBSCRIBE_WORKSPACE
        workspaceId := some workspaceId
        readToken := none
        blockIds := none
        token := none }
    (s, sendCommand command s)

/-- Embeds `subscribeToWorkspace` (wsclient.ts:424-436). -/
def subscribeToWorkspace (workspaceId : String) (s : WSState) :
    WSState × Option SentMessage :=
  if !(hasConn s) then (s, none)
  else
    let command : WSCommand :=
      { action := ACTION_SUBSCRIBE_WORKSPACE
        workspaceId := some workspaceId
        readToken := none
        blockIds := none
        token := none }
    (s, sendCommand command s)

/-- Embeds `unsubscribeFromBlocks` (wsclient.ts:438-452). -/
def unsubscribeFromBlocks (workspaceId : String) (blockIds : List String)
    (readToken : String) (s : WSState) : WSState × Option SentMessage :=
  if !(hasConn s) then (s, none)
  else
    let command : WSCommand :=
      { action := ACTION_UNSUBSCRIBE_BLOCKS
        workspaceId := some workspaceId
        readToken := some readToken
        blockIds := some blockIds
        token := none }
    (s, sendCommand command s)

/-- Embeds `close` (wsclient.ts:497-526): a no-op with no transport;
otherwise detach the raw socket handle, reset the per-category change
registries and clear the reconnect, state-change and error registries,
leaving `onConfigChange` untouched.  (The subsequent raw-socket shutdown in
standalone mode has no effect on the client's own fields.) -/
def close (s : WSState) : WSState :=
  if !(hasConn s) then s
  else { s with ws := false,
                onChange := { Block := [], Category := [] },
                onReconnect := [], onStateChange := [], onError := [] }

/-- Recognises a message dispatched through the relay client's `sendMessage`. -/
def sentViaRelay : Option SentMessage → Bool
  | some (SentMessage.relay _ _) => true
  | _ => false

/-- Recognises the log line written on each invocation of the captured
reconnect logic (wsclient.ts:206). -/
def isLogReconnect : WSEvent → Bool
  | WSEvent.logReconnect => true
  | _ => false

/-- Recognises a reconnect-handler invocation. -/
def isReconnectCall : WSEvent → Bool
  | WSEvent.reconnectCall _ => true
  | _ => false

/-- A freshly constructed client: both transport handles null, registries and
the pending-update buffer empty, lifecycle state "init". -/
def initialState : WSState where
  ws := false
  client := false
  state := "init"
  pluginId := ""
  pluginVersion := []
  clientPrefixStr := ""
  onAppVersionChangeHandler := false
  onStateChange := []
  onReconnect := []
  onChange := { Block := [], Category := [] }
  onError := []
  onConfigChange := []
  updatedData := { Blocks := [], Categories := [] }
  updateTimeout := none
  errorPollActive := false

/-- A sample block. -/
def wBlockA : Block := { id := "b1", title := "v1" }

/-- A second value for the same block identity. -/
def wBlockB : Block := { id := "b1", title := "v2" }

/-- A sample category. -/
def wCat : Category := { id := "c1", name := "n1" }

/-- Two enqueues of the same block identity, 50 ms apart. -/
def burstEvents : List EnqEvent :=
  [{ data := UpdateData.block wBlockA, time := 0 },
   { data := UpdateData.block wBlockB, time := 50 }]

/-- A block enqueued from inside a flush handler. -/
def flushReenterBlock : Block := { id := "b9", title := "late" }

/-- Handler behaviour where handler 0 enqueues `flushReenterBlock` while the
flush is delivering batches. -/
def flushReenterInterp : Nat → WSState → WSState :=
  fun h st =>
    if h == 0 then queueUpdateNotification (UpdateData.block flushReenterBlock) 0 st else st

/-- A client about to flush one pending block to block-change handler 0. -/
def flushReenterState : WSState :=
  { initialState with
      onChange := { Block := [0], Category := [] },
      updatedData := { Blocks := [wBlockA], Categories := [] } }

/-- A client in state "init" with one registered state-change handler. -/
def staleStateClient : WSState :=
  { initialState with onStateChange := [0] }

/-- A client with one block-change and one category-change handler and only a
block update pending. -/
def flushCatState : WSState :=
  { initialState with
      onChange := { Block := [1], Category := [2] },
      updatedData := { Blocks := [wBlockA], Categories := [] } }

/-- An embedded client with a recorded plugin version and a registered
app-version-change handler. -/
def versionState : WSState :=
  { initialState with
      client := true, pluginId := "focalboard", pluginVersion := [7, 2, 0],
      onAppVersionChangeHandler := true }

/-- A plugin-status broadcast naming this instance with a strictly newer
version. -/
def newerStatus : PluginStatus := { plugin_id := "focalboard", version := [7, 3, 0] }

/-- An embedded client with registered state-change and reconnect handlers and
no poll loop running. -/
def pollState : WSState :=
  { initialState with client := true, onStateChange := [0], onReconnect := [7] }

/-- A standalone client with an open socket and every registry populated. -/
def openedState : WSState :=
  { initialState with
      ws := true, onStateChange := [3], onReconnect := [4],
      onChange := { Block := [5], Category := [6] }, onError := [7],
      onConfigChange := [8] }

/-- An embedded client as configured by `initPlugin`. -/
def embeddedState : WSState :=
  { initialState with
      client := true, clientPrefixStr := "custom_focalboard_", pluginId := "focalboard" }

/-- Identities of a buffer stay duplicate-free when every entry carrying the
identity of `a` is evicted before `a` is appended. -/
theorem nodup_filter_append_map {α : Type} (f : α → String) (xs : List α) (a : α)
    (h : (xs.map f).Nodup) :
    (((xs.filter fun x => f x != f a) ++ [a]).map f).Nodup := by
  rw [List.map_append]
  refine List.Nodup.append (List.Nodup.sublist ((List.filter_sublist xs).map f) h) ?_ ?_
  · simp
  · intro y hy hmem
    simp only [List.map_cons, List.map_nil, List.mem_singleton] at hmem
    subst hmem
    rcases List.mem_map.mp hy with ⟨x, hx, hfx⟩
    have hne := List.of_mem_filter hx
    rw [bne_iff_ne] at hne
    exact hne hfx

/-- After evicting identity `i` from a buffer, no element with identity `i`
remains. -/
theorem filter_beq_after_bne {α : Type} (f : α → String) (i : String) (xs : List α) :
    ((xs.filter fun x => f x != i).filter fun x => f x == i) = [] := by
  induction xs with
  | nil => rfl
  | cons x rest ih =>
    by_cases h : f x = i
    · simp [List.filter_cons, h, ih]
    · simp [List.filter_cons, h, ih]

/-- A single enqueue preserves the at-most-once identity invariant of both
pending sequences. -/
theorem queueUpdate_preserves_nodup (d : UpdateData) (t : Nat) (s : WSState)
    (hb : (s.updatedData.Blocks.map Block.id).Nodup)
    (hc : (s.updatedData.Categories.map Category.id).Nodup) :
    ((queueUpdateNotification d t s).updatedData.Blocks.map Block.id).Nodup ∧
    ((queueUpdateNotification d t s).updatedData.Categories.map Category.id).Nodup := by
  cases d with
  | block b =>
    refine ⟨?_, ?_⟩
    · simp only [queueUpdateNotification, hydrateBlock]
      exact nodup_filter_append_map Block.id s.updatedData.Blocks b hb
    · simpa only [queueUpdateNotification] using hc
  | category c =>
    refine ⟨?_, ?_⟩
    · simpa only [queueUpdateNotification] using hb
    · simp only [queueUpdateNotification]
      exact nodup_filter_append_map Category.id s.updatedData.Categories c hc

/-- The at-most-once identity invariant is preserved by any sequence of
enqueues. -/
theorem foldl_stepEnq_nodup (evs : List EnqEvent) (s : WSState)
    (hb : (s.updatedData.Blocks.map Block.id).Nodup)
    (hc : (s.updatedData.Categories.map Category.id).Nodup) :
    ((evs.foldl stepEnq s).updatedData.Blocks.map Block.id).Nodup ∧
    ((evs.foldl stepEnq s).updatedData.Categories.map Category.id).Nodup := by
  induction evs generalizing s with
  | nil => exact ⟨hb, hc⟩
  | cons e rest ih =>
    have h := queueUpdate_preserves_nodup e.data e.time s hb hc
    exact ih _ h.1 h.2

/-- C1: starting from a buffer whose identities are duplicate-free, any
sequence of enqueues keeps each identity at most once in each pending
sequence, and an enqueue leaves exactly one entry for the enqueued identity in
its category's sequence, equal to the enqueued value and positioned at the
end. -/
theorem queueUpdate_last_write_wins (s : WSState) (t : Nat) (b : Block) (c : Category)
    (evs : List EnqEvent)
    (hb : (s.updatedData.Blocks.map Block.id).Nodup)
    (hc : (s.updatedData.Categories.map Category.id).Nodup) :
    (((evs.foldl stepEnq s).updatedData.Blocks.map Block.id).Nodup ∧
     ((evs.foldl stepEnq s).updatedData.Categories.map Category.id).Nodup) ∧
    ((queueUpdateNotification (UpdateData.block b) t s).updatedData.Blocks.filter
        (fun o => o.id == b.id) = [hydrateBlock b]) ∧
    ((queueUpdateNotification (UpdateData.block b) t s).updatedData.Blocks.getLast?
        = some (hydrateBlock b)) ∧
    ((queueUpdateNotification (UpdateData.category c) t s).updatedData.Categories.filter
        (fun o => o.id == c.id) = [c]) ∧
    ((queueUpdateNotification (UpdateData.category c) t s).updatedData.Categories.getLast?
        = some c) := by
  refine ⟨foldl_stepEnq_nodup evs s hb hc, ?_, ?_, ?_, ?_⟩
  · simp only [queueUpdateNotification, hydrateBlock]
    rw [List.filter_append, filter_beq_after_bne Block.id b.id]
    simp
  · simp only [queueUpdateNotification, hydrateBlock]
    exact List.getLast?_concat _
  · simp only [queueUpdateNotification]
    rw [List.filter_append, filter_beq_after_bne Category.id c.id]
    simp
  · simp only [queueUpdateNotification]
    exact List.getLast?_concat _

/-- C1 witness: concrete instance of `queueUpdate_last_write_wins`. -/
theorem queueUpdate_last_write_wins_witness :
    (initialState.updatedData.Blocks.map Block.id).Nodup ∧
    ((burstEvents.foldl stepEnq initialState).updatedData.Blocks.map Block.id).Nodup ∧
    (queueUpdateNotification (UpdateData.block wBlockB) 50 initialState).updatedData.Blocks.filter
        (fun o => o.id == wBlockB.id) = [hydrateBlock wBlockB] :=
  ⟨by decide,
   (queueUpdate_last_write_wins initialState 50 wBlockB wCat burstEvents
      (by decide) (by decide)).1.1,
   (queueUpdate_last_write_wins initialState 50 wBlockB wCat burstEvents
      (by decide) (by decide)).2.1⟩

/-- C2 counterexample: a flush handler enqueues block "b9" while the flush is
running.  The code's flush (`flushUpdateNotifications`) resets the buffer
after the handlers, so the enqueued update is discarded and the buffer ends
empty; the specification's swap-first flush (`flushSwapFirstSpec`) would
preserve it in the fresh buffer. -/
theorem flush_reset_order_counterexample :
    (flushUpdateNotifications flushReenterInterp flushReenterState).1.updatedData.Blocks
      = [] ∧
    (flushSwapFirstSpec flushReenterInterp flushReenterState).1.updatedData.Blocks
      = [hydrateBlock flushReenterBlock] ∧
    (flushUpdateNotifications flushReenterInterp flushReenterState).1.updatedData.Blocks
      ≠ (flushSwapFirstSpec flushReenterInterp flushReenterState).1.updatedData.Blocks := by
  refine ⟨?_, ?_, ?_⟩ <;> decide

/-- C2 amended: the flush resets the pending-update buffer to empty only after
all flush handlers have executed, for every handler behaviour; consequently
the buffer is empty after every flush and an update enqueued during
flush-handler execution is placed in the buffer being flushed and discarded
with it. -/
theorem flush_resets_buffer_after_handlers (interp : Nat → WSState → WSState) (s : WSState) :
    (flushUpdateNotifications interp s).1.updatedData.Blocks = [] ∧
    (flushUpdateNotifications interp s).1.updatedData.Categories = [] := by
  constructor <;> simp [flushUpdateNotifications]

/-- C4 counterexample: with the client in state "init" and one registered
state-change handler, the connect callback invokes the handler while the
`state` field still holds "init"; the field is assigned "open" only after the
handlers return. -/
theorem state_open_handlers_observe_stale_state :
    (onConnectPlugin staleStateClient).2
      = [WSEvent.stateChangeCall 0 "open" "init"] ∧
    "init" ≠ "open" := by
  refine ⟨?_, ?_⟩ <;> decide

/-- C4 amended: every connect path fires each registered state-change handler
with argument "open" and assigns the `state` field to "open" only afterwards,
so at the moment a handler is invoked the field still holds the previous
value; symmetrically the embedded close path fires handlers with "close"
before assigning "close". -/
theorem state_transition_sets_state_after_handlers (s : WSState) (fc : Nat) :
    (onConnectPlugin s).1.state = "open" ∧
    (onConnectPlugin s).2
      = s.onStateChange.map (fun h => WSEvent.stateChangeCall h "open" s.state) ∧
    (wsOnOpen s).1.state = "open" ∧
    (wsOnOpen s).2
      = s.onStateChange.map (fun h => WSEvent.stateChangeCall h "open" s.state) ∧
    (onClosePlugin fc s).1.state = "close" ∧
    (onClosePlugin fc s).2
      = WSEvent.logClose fc ::
          s.onStateChange.map (fun h => WSEvent.stateChangeCall h "close" s.state)
        ++ (if s.errorPollActive then [] else [WSEvent.pollStarted]) := by
  refine ⟨rfl, rfl, rfl, rfl, ?_, ?_⟩ <;>
    cases hep : s.errorPollActive <;>
      simp [onClosePlugin, fireStateChange, hep]

/-- While consecutive enqueues stay less than the debounce interval apart, the
armed timer never fires: the flush count is unchanged and a timer armed by the
last enqueue remains pending. -/
theorem stepTimed_burst_aux (evs : List EnqEvent) (tr : TimedRun) (t0 : Nat)
    (hdl : tr.state.updateTimeout = some (t0 + notificationDelay))
    (hsp : closelySpaced (t0 :: evs.map EnqEvent.time) = true) :
    (evs.foldl stepTimed tr).flushCount = tr.flushCount ∧
    ∃ tl, (evs.foldl stepTimed tr).state.updateTimeout = some (tl + notificationDelay) := by
  induction evs generalizing tr t0 with
  | nil => exact ⟨rfl, t0, hdl⟩
  | cons e rest ih =>
    have hsp' : e.time < t0 + notificationDelay ∧
        closelySpaced (e.time :: rest.map EnqEvent.time) = true := by
      simpa [closelySpaced] using hsp
    have hfire : fireIfDue e.time tr = tr := by
      simp [fireIfDue, hdl, Nat.not_le.mpr hsp'.1]
    have hdl' : (stepTimed tr e).state.updateTimeout
        = some (e.time + notificationDelay) := by
      simp [stepTimed, hfire, queueUpdateNotification]
    have hcnt : (stepTimed tr e).flushCount = tr.flushCount := by
      simp [stepTimed, hfire]
    obtain ⟨hc2, tl, hdl2⟩ := ih (stepTimed tr e) e.time hdl' hsp'.2
    refine ⟨?_, tl, ?_⟩
    · rw [List.foldl_cons, hc2, hcnt]
    · rw [List.foldl_cons]
      exact hdl2

/-- C3: every enqueue cancels any pending debounce timer and arms a fresh one
expiring `notificationDelay` later, so a non-empty burst of enqueues spaced
less than the debounce interval apart, starting with no timer armed, produces
exactly one flush — after the quiet window — not one per enqueue. -/
theorem debounce_burst_single_flush (s : WSState) (evs : List EnqEvent)
    (h0 : s.updateTimeout = none) (hne : evs ≠ [])
    (hsp : closelySpaced (evs.map EnqEvent.time) = true) :
    (runBurst evs s).flushCount = 1 ∧
    ∀ d t s2, (queueUpdateNotification d t s2).updateTimeout
      = some (t + notificationDelay) := by
  constructor
  · cases evs with
    | nil => exact absurd rfl hne
    | cons e rest =>
      have hfirst : stepTimed { state := s, flushCount := 0 } e
          = { state := queueUpdateNotification e.data e.time s, flushCount := 0 } := by
        simp [stepTimed, fireIfDue, h0]
      have hdl' : (stepTimed { state := s, flushCount := 0 } e).state.updateTimeout
          = some (e.time + notificationDelay) := by
        rw [hfirst]
        simp [queueUpdateNotification]
      have hsp' : closelySpaced (e.time :: rest.map EnqEvent.time) = true := by
        simpa using hsp
      obtain ⟨hc2, tl, hdl2⟩ :=
        stepTimed_burst_aux rest (stepTimed { state := s, flushCount := 0 } e) e.time hdl' hsp'
      have hcnt : (stepTimed { state := s, flushCount := 0 } e).flushCount = 0 := by
        rw [hfirst]
      rw [runBurst, List.foldl_cons]
      rw [drainTimer, hdl2]
      rw [fireFlush, hc2, hcnt]
  · intro d t s2
    simp [queueUpdateNotification]

/-- C3 witness: concrete instance of `debounce_burst_single_flush` on a burst
of two enqueues 50 ms apart. -/
theorem debounce_burst_single_flush_witness :
    closelySpaced (burstEvents.map EnqEvent.time) = true ∧
    (runBurst burstEvents initialState).flushCount = 1 :=
  ⟨by decide,
   (debounce_burst_single_flush initialState burstEvents rfl (by decide) (by decide)).1⟩

/-- C5: when a plugin-status broadcast names this instance's plugin id and an
app-version-change handler is registered, a strictly newer broadcast version
fires the hook with `true` and schedules the 1000 ms reconnect, while an equal
version schedules the reconnect without firing the hook. -/
theorem plugin_version_change_detection (s : WSState) (data : List PluginStatus)
    (st : PluginStatus)
    (hid : s.pluginId ≠ "") (hreg : s.onAppVersionChangeHandler = true)
    (hfind : data.find? (fun x => x.plugin_id == s.pluginId) = some st) :
    (compareVersions s.pluginVersion st.version > 0 →
      pluginStatusesChangedHandler data s
        = [WSEvent.appVersionChange true, WSEvent.scheduleReconnect 1000]) ∧
    (compareVersions s.pluginVersion st.version = 0 →
      pluginStatusesChangedHandler data s = [WSEvent.scheduleReconnect 1000]) := by
  have hguard : (s.pluginId == "" || !s.onAppVersionChangeHandler) = false := by
    simp [hid, hreg]
  constructor
  · intro hgt
    simp [pluginStatusesChangedHandler, hguard, hfind, hgt, le_of_lt hgt]
  · intro heq
    simp [pluginStatusesChangedHandler, hguard, hfind, heq]

/-- C5 witness: concrete instance of `plugin_version_change_detection` with
local version 7.2.0 and broadcast version 7.3.0. -/
theorem plugin_version_change_detection_witness :
    compareVersions versionState.pluginVersion newerStatus.version > 0 ∧
    pluginStatusesChangedHandler [newerStatus] versionState
      = [WSEvent.appVersionChange true, WSEvent.scheduleReconnect 1000] :=
  ⟨by decide,
   (plugin_version_change_detection versionState [newerStatus] newerStatus
      (by decide) rfl (by decide)).1 (by decide)⟩

/-- The first reading equal to `1` observed by an active poll loop hands
control to the captured reconnect logic and cancels the loop. -/
theorem runPoll_first_one (readings : List Nat) (s : WSState)
    (hact : s.errorPollActive = true) (hone : 1 ∈ readings) :
    runPoll readings s
      = ({ (onReconnectPlugin s).1 with errorPollActive := false },
         (onReconnectPlugin s).2) := by
  induction readings with
  | nil => cases hone
  | cons r rest ih =>
    by_cases hr : r = 1
    · subst hr
      simp [runPoll, hact]
    · have h1 : 1 ∈ rest := by
        rcases List.mem_cons.mp hone with h | h
        · exact absurd h.symm hr
        · exact h
      rw [runPoll]
      simp only [hact, if_true]
      have hrb : (r == 1) = false := by simpa using hr
      rw [hrb]
      simpa using ih h1

/-- State-change handler calls are not reconnect log lines. -/
theorem countP_logReconnect_stateChange_zero (hs : List Nat) (arg st : String) :
    ((hs.map fun h => WSEvent.stateChangeCall h arg st).countP isLogReconnect) = 0 := by
  induction hs with
  | nil => rfl
  | cons h rest ih => simp [List.countP_cons, isLogReconnect, ih]

/-- Reconnect-handler calls are not reconnect log lines. -/
theorem countP_logReconnect_reconnectCall_zero (hs : List Nat) :
    ((hs.map fun h => WSEvent.reconnectCall h).countP isLogReconnect) = 0 := by
  induction hs with
  | nil => rfl
  | cons h rest ih => simp [List.countP_cons, isLogReconnect, ih]

/-- One invocation of the captured reconnect logic writes exactly one
reconnect log line. -/
theorem countP_logReconnect_onReconnectPlugin (s : WSState) :
    ((onReconnectPlugin s).2.countP isLogReconnect) = 1 := by
  simp [onReconnectPlugin, onConnectPlugin, fireStateChange, List.countP_cons,
    List.countP_append, isLogReconnect, countP_logReconnect_stateChange_zero,
    countP_logReconnect_reconnectCall_zero]

/-- C6: in embedded mode, the relay close callback sets the state to "close"
and starts the readiness poll if none is running; a further close while the
poll is active does not start a second loop; and on the first polled reading
equal to `1` the poll invokes the captured reconnect logic exactly once —
leaving the state "open" — and cancels itself. -/
theorem plugin_close_starts_poll_reconnect_once (s : WSState) (fc : Nat)
    (readings : List Nat)
    (hclient : s.client = true) (hpoll : s.errorPollActive = false)
    (hone : 1 ∈ readings) :
    ((onClosePlugin fc s).1.state = "close") ∧
    ((onClosePlugin fc s).1.client = true) ∧
    ((onClosePlugin fc s).1.errorPollActive = true) ∧
    (∀ fc2, WSEvent.pollStarted ∉ (onClosePlugin fc2 (onClosePlugin fc s).1).2 ∧
      (onClosePlugin fc2 (onClosePlugin fc s).1).1.errorPollActive = true) ∧
    (runPoll readings (onClosePlugin fc s).1
      = ({ (onReconnectPlugin (onClosePlugin fc s).1).1 with errorPollActive := false },
         (onReconnectPlugin (onClosePlugin fc s).1).2)) ∧
    ((runPoll readings (onClosePlugin fc s).1).1.state = "open") ∧
    ((runPoll readings (onClosePlugin fc s).1).2.countP isLogReconnect = 1) := by
  have hclose : (onClosePlugin fc s).1
      = { s with state := "close", errorPollActive := true } := by
    simp [onClosePlugin, hpoll]
  have hact : (onClosePlugin fc s).1.errorPollActive = true := by
    rw [hclose]
  have hrun := runPoll_first_one readings (onClosePlugin fc s).1 hact hone
  refine ⟨by rw [hclose], by rw [hclose]; exact hclient, hact, ?_, hrun, ?_, ?_⟩
  · intro fc2
    constructor
    · rw [hclose]
      simp [onClosePlugin, fireStateChange]
    · rw [hclose]
      simp [onClosePlugin]
  · rw [hrun]
    simp [onReconnectPlugin, onConnectPlugin]
  · rw [hrun]
    exact countP_logReconnect_onReconnectPlugin _

/-- C6 witness: concrete instance of `plugin_close_starts_poll_reconnect_once`
with fail count 3 and readings 0, 0, 1, 0. -/
theorem plugin_close_starts_poll_reconnect_once_witness :
    pollState.errorPollActive = false ∧ (1 : Nat) ∈ [0, 0, 1, 0] ∧
    (runPoll [0, 0, 1, 0] (onClosePlugin 3 pollState).1).1.state = "open" ∧
    (runPoll [0, 0, 1, 0] (onClosePlugin 3 pollState).1).2.countP isLogReconnect = 1 :=
  ⟨rfl, by decide,
   (plugin_close_starts_poll_reconnect_once pollState 3 [0, 0, 1, 0]
      rfl rfl (by decide)).2.2.2.2.2.1,
   (plugin_close_starts_poll_reconnect_once pollState 3 [0, 0, 1, 0]
      rfl rfl (by decide)).2.2.2.2.2.2⟩

/-- C7: with a transport active, `close` empties the state-change, reconnect,
error and per-category change registries while leaving the config-change
registry exactly as it was; with no transport active, `close` is a no-op. -/
theorem close_clears_registries_except_config (s : WSState) :
    (hasConn s = true →
      (close s).onStateChange = [] ∧ (close s).onReconnect = [] ∧
      (close s).onError = [] ∧
      (close s).onChange = { Block := [], Category := [] } ∧
      (close s).onConfigChange = s.onConfigChange) ∧
    (hasConn s = false → close s = s) := by
  constructor
  · intro h
    simp [close, h]
  · intro h
    simp [close, h]

/-- C7 witness: concrete instance of `close_clears_registries_except_config`
on a connected client with every registry populated, and on a client with no
transport. -/
theorem close_clears_registries_except_config_witness :
    hasConn openedState = true ∧
    (close openedState).onConfigChange = openedState.onConfigChange ∧
    hasConn initialState = false ∧
    close initialState = initialState :=
  ⟨rfl,
   ((close_clears_registries_except_config openedState).1 rfl).2.2.2.2,
   rfl,
   (close_clears_registries_except_config initialState).2 rfl⟩

/-- C8: with no transport active, every command method returns without
raising, without building or sending a command, and with the client state
unchanged. -/
theorem commands_skipped_without_transport (s : WSState) (w tok rt : String)
    (bids : List String) (h : hasConn s = false) :
    authenticate w tok s = (s, none) ∧
    subscribeToBlocks w bids rt s = (s, none) ∧
    unsubscribeFromBlocks w bids rt s = (s, none) ∧
    subscribeToWorkspace w s = (s, none) ∧
    unsubscribeToWorkspace w s = (s, none) := by
  refine ⟨?_, ?_, ?_, ?_, ?_⟩ <;>
    simp [authenticate, subscribeToBlocks, unsubscribeFromBlocks, subscribeToWorkspace,
      unsubscribeToWorkspace, h]

/-- C8 witness: concrete instance of `commands_skipped_without_transport` on a
freshly constructed client. -/
theorem commands_skipped_without_transport_witness :
    hasConn initialState = false ∧
    authenticate "w1" "tok" initialState = (initialState, none) ∧
    subscribeToBlocks "w1" ["id1"] "" initialState = (initialState, none) :=
  ⟨rfl,
   (commands_skipped_without_transport initialState "w1" "tok" "" ["id1"] rfl).1,
   (commands_skipped_without_transport initialState "w1" "tok" "" ["id1"] rfl).2.1⟩

/-- Under handlers that do not touch the client state, the block-handler loop
calls every registered handler in order with the block batch. -/
theorem runBlockHandlers_id (hs : List Nat) (s : WSState) :
    runBlockHandlers idInterp hs s
      = (s, hs.map fun h => WSEvent.blockChangeCall h s.updatedData.Blocks) := by
  induction hs with
  | nil => rfl
  | cons h rest ih => simp [runBlockHandlers, idInterp, ih]

/-- Under handlers that do not touch the client state, the category-handler
loop calls every registered handler in order with the category batch. -/
theorem runCategoryHandlers_id (hs : List Nat) (s : WSState) :
    runCategoryHandlers idInterp hs s
      = (s, hs.map fun h => WSEvent.categoryChangeCall h s.updatedData.Categories) := by
  induction hs with
  | nil => rfl
  | cons h rest ih => simp [runCategoryHandlers, idInterp, ih]

/-- C9: a flush logs the buffered identities and then invokes every registered
block-change handler with the block batch and every registered category-change
handler with the category batch, regardless of which category accumulated
updates; in particular, when no category update is pending each
category-change handler is still called, receiving the empty batch. -/
theorem flush_notifies_all_handlers (s : WSState) :
    ((flushUpdateNotifications idInterp s).2
      = s.updatedData.Blocks.map (fun b => WSEvent.logFlushBlock b.id)
        ++ s.updatedData.Categories.map (fun c => WSEvent.logFlushCategory c.id)
        ++ s.onChange.Block.map (fun h => WSEvent.blockChangeCall h s.updatedData.Blocks)
        ++ s.onChange.Category.map
            (fun h => WSEvent.categoryChangeCall h s.updatedData.Categories)) ∧
    (s.updatedData.Categories = [] →
      ∀ h ∈ s.onChange.Category,
        WSEvent.categoryChangeCall h [] ∈ (flushUpdateNotifications idInterp s).2) := by
  have hmain : (flushUpdateNotifications idInterp s).2
      = s.updatedData.Blocks.map (fun b => WSEvent.logFlushBlock b.id)
        ++ s.updatedData.Categories.map (fun c => WSEvent.logFlushCategory c.id)
        ++ s.onChange.Block.map (fun h => WSEvent.blockChangeCall h s.updatedData.Blocks)
        ++ s.onChange.Category.map
            (fun h => WSEvent.categoryChangeCall h s.updatedData.Categories) := by
    simp [flushUpdateNotifications, runBlockHandlers_id, runCategoryHandlers_id]
  refine ⟨hmain, ?_⟩
  intro hempty h hh
  rw [hmain]
  refine List.mem_append_right _ (List.mem_map.mpr ⟨h, hh, ?_⟩)
  rw [hempty]

/-- C9 witness: concrete instance of `flush_notifies_all_handlers` where only
a block update is pending and category-change handler 2 still receives the
empty batch. -/
theorem flush_notifies_all_handlers_witness :
    flushCatState.updatedData.Categories = [] ∧
    WSEvent.categoryChangeCall 2 [] ∈ (flushUpdateNotifications idInterp flushCatState).2 :=
  ⟨rfl, (flush_notifies_all_handlers flushCatState).2 rfl 2 (by decide)⟩

/-- C10: after `close` on an embedded client the relay handle remains set,
`hasConn` still reports a transport, and every command method still builds its
command and dispatches it through the relay send primitive rather than taking
the no-transport skip path. -/
theorem close_embedded_keeps_relay_transport (s : WSState) (w tok rt : String)
    (bids : List String) (hc : s.client = true) (ht : tok ≠ "") :
    (close s).client = true ∧ hasConn (close s) = true ∧
    sentViaRelay (authenticate w tok (close s)).2 = true ∧
    sentViaRelay (subscribeToBlocks w bids rt (close s)).2 = true ∧
    sentViaRelay (unsubscribeFromBlocks w bids rt (close s)).2 = true ∧
    sentViaRelay (subscribeToWorkspace w (close s)).2 = true ∧
    sentViaRelay (unsubscribeToWorkspace w (close s)).2 = true := by
  have hconn : hasConn s = true := by simp [hasConn, hc]
  have hcl : (close s).client = true := by simp [close, hconn, hc]
  have hconn2 : hasConn (close s) = true := by simp [hasConn, hcl]
  refine ⟨hcl, hconn2, ?_, ?_, ?_, ?_, ?_⟩ <;>
    simp [authenticate, subscribeToBlocks, unsubscribeFromBlocks, subscribeToWorkspace,
      unsubscribeToWorkspace, sendCommand, sentViaRelay, hconn2, hcl, ht]

/-- C10 witness: concrete instance of `close_embedded_keeps_relay_transport`
on a client configured by the embedded initialization. -/
theorem close_embedded_keeps_relay_transport_witness :
    embeddedState.client = true ∧
    hasConn (close embeddedState) = true ∧
    sentViaRelay (subscribeToWorkspace "w1" (close embeddedState)).2 = true :=
  ⟨rfl,
   (close_embedded_keeps_relay_transport embeddedState "w1" "tok" "" [] rfl
      (by decide)).2.1,
   (close_embedded_keeps_relay_transport embeddedState "w1" "tok" "" [] rfl
      (by decide)).2.2.2.2.2.1⟩

end WS
